import Mathlib

/-!
Verification of the datascope-agent repository's core components against its
specification.  The Python sources are shallowly embedded as executable Lean
definitions:

* `execute_sql_validation` / `execute_sql_success` — the read-only SQL guard
  and result formatting of `datascope-langgraph-app/agent/tools.py`
  (`execute_sql`, lines 288-344);
* `get_conversation_summary` — the prior-turn digest of
  `datascope-ui-app/app.py` (lines 163-214), modelled on the row list the SQL
  query returns;
* `handle_mcp_request` — the JSON-RPC tool gateway of
  `github-mcp-app/mcp_server.py` (lines 241-332), with the tool handlers
  (network calls) supplied as an oracle returning either a JSON-dumped payload
  or an exception message;
* `chat_with_llm` — the orchestration loop of `datascope-ui-app/app.py`
  (lines 679-884), with the LLM endpoint and the three tool backends
  (network calls) supplied as oracles in `Env`.

Python strings are modelled as Lean `String`s; slicing `s[:n]`, `.upper()`,
`.strip()` and substring tests are re-implemented character-exactly below.
-/

/-! ## String helpers mirroring the Python string operations used -/

/-- Python's `sep.join(parts)`. -/
def strJoin (sep : String) : List String → String
  | [] => ""
  | [s] => s
  | s :: rest => s ++ sep ++ strJoin sep rest

/-- Python's slice `s[:n]` (first `n` characters). -/
def pyTake (n : Nat) (s : String) : String := String.mk (s.toList.take n)

/-- Python's `str.strip()` on a character list: whitespace removed from both
ends. -/
def pyStripChars (l : List Char) : List Char :=
  ((l.dropWhile Char.isWhitespace).reverse.dropWhile Char.isWhitespace).reverse

/-- Python's `str.upper()` as a character list (the SQL guard only compares
ASCII keywords, for which `Char.toUpper` agrees with Python). -/
def pyUpper (s : String) : List Char := s.toList.map Char.toUpper

/-- Decides whether `sub` occurs contiguously inside `l` — Python's
`sub in s` on strings. -/
def hasInfix (sub : List Char) : List Char → Bool
  | [] => sub.isEmpty
  | c :: rest => sub.isPrefixOf (c :: rest) || hasInfix sub rest

/-- Python's `sub in s` for `String`s. -/
def hasInfixStr (sub s : String) : Bool := hasInfix sub.toList s.toList

/-! ## The SQL query tool (datascope-langgraph-app/agent/tools.py)

`execute_sql` first validates the query text (lines 291-300), then posts it to
the warehouse and formats a successful response (lines 324-344).  The
validation is a pure function of the query string; the success-path formatting
is a pure function of the decoded API response, embedded here as
`SqlApiSuccess`. -/

/-- Row cap of the SQL tool: `MAX_ROWS = 15` in tools.py line 27. -/
def MAX_ROWS : Nat := 15

/-- Allow-listed verbs, tools.py line 295. -/
def allowed_prefixes : List String := ["SELECT", "DESCRIBE", "DESC", "SHOW"]

/-- Deny-listed keywords, tools.py line 299.  `CREATE` is not in this list
(unlike the variant in datascope-mcp-server/app.py line 628). -/
def denied_keywords : List String :=
  ["DROP", "DELETE", "UPDATE", "INSERT", "ALTER", "TRUNCATE"]

/-- `query.upper().strip()`, tools.py line 292. -/
def queryUpper (query : String) : List Char := pyStripChars (pyUpper query)

/-- Test of tools.py line 296: the normalized query starts with an
allow-listed verb. -/
def startsAllowed (query : String) : Bool :=
  allowed_prefixes.any (fun p => p.toList.isPrefixOf (queryUpper query))

/-- Test of tools.py line 299: the normalized query contains a deny-listed
keyword anywhere. -/
def containsDenied (query : String) : Bool :=
  denied_keywords.any (fun kw => hasInfix kw.toList (queryUpper query))

/-- Error string returned on a disallowed verb, tools.py line 297. -/
def prefixRejection : String :=
  "Error: Only SELECT, DESCRIBE, and SHOW queries are allowed for safety."

/-- Error string returned on a denied keyword, tools.py line 300. -/
def keywordRejection : String :=
  "Error: Only read-only SELECT queries are allowed."

/-- Validation prefix of `execute_sql` (tools.py lines 291-300): `some err`
when the query is rejected with error string `err` before any execution,
`none` when it passes validation and is sent to the warehouse. -/
def execute_sql_validation (query : String) : Option String :=
  if startsAllowed query = false then some prefixRejection
  else if containsDenied query then some keywordRejection
  else none

/-- The decoded fields of a SUCCEEDED statement-execution API response that
`execute_sql` reads (tools.py lines 324-340): column names, the returned
`data_array` (each cell already rendered by `str`, `none` for SQL NULL), and
the optional `row_count` field. -/
structure SqlApiSuccess where
  columns : List String
  data_array : List (List (Option String))
  row_count : Option Nat
deriving DecidableEq

/-- Number of rows `execute_sql` actually renders: `data_array[:MAX_ROWS]`
(tools.py line 327). -/
def rowsReturned (r : SqlApiSuccess) : Nat := (r.data_array.take MAX_ROWS).length

/-- The total row count `execute_sql` reports:
`result.get("row_count", len(rows))` (tools.py line 340). -/
def reportedTotal (r : SqlApiSuccess) : Nat := r.row_count.getD (rowsReturned r)

/-- Success-path formatting of `execute_sql` (tools.py lines 324-344):
truncation to `MAX_ROWS`, markdown table, and the `Showing N of M rows`
footer when the reported total exceeds the cap. -/
def execute_sql_success (r : SqlApiSuccess) : String :=
  let rows := r.data_array.take MAX_ROWS
  if rows.isEmpty then "Query executed successfully but returned no results."
  else
    let header := "| " ++ strJoin " | " r.columns ++ " |"
    let separator := "| " ++ strJoin " | " (List.replicate r.columns.length "---") ++ " |"
    let body_lines := rows.map (fun row =>
      "| " ++ strJoin " | " (row.map (fun v => v.getD "NULL")) ++ " |")
    let total_count := r.row_count.getD rows.length
    let footer :=
      if MAX_ROWS < total_count then
        "\n*Showing " ++ toString rows.length ++ " of " ++ toString total_count ++ " rows*"
      else ""
    "```\n" ++ header ++ "\n" ++ separator ++ "\n" ++ strJoin "\n" body_lines
      ++ "\n```" ++ footer

/-! ## The prior-turn digest (datascope-ui-app/app.py, lines 163-214)

`get_conversation_summary` runs a SQL query returning the conversation's
`(role, content)` rows — already filtered to roles `user`/`assistant`, non-null
content of length > 10, ordered chronologically — and then digests them with
pure string processing.  The embedding takes that row list as input. -/

/-- The pairing loop of app.py lines 192-200: scan the rows, pairing an
adjacent `(user, assistant)` couple (truncated to 200/500 characters) and
skipping one row otherwise; the scan stops when fewer than two rows remain,
which skips a trailing pending user row. -/
def pairExchanges : List (String × String) → List (String × String)
  | [] => []
  | [_] => []
  | (r1, c1) :: (r2, c2) :: rest =>
    if r1 = "user" ∧ r2 = "assistant" then
      (pyTake 200 c1, pyTake 500 c2) :: pairExchanges rest
    else
      pairExchanges ((r2, c2) :: rest)

/-- Format of the user side of one exchange, app.py line 207. -/
def userLine (q : String) : String := "User asked: \"" ++ q ++ "\""

/-- Format of the assistant side of one exchange, app.py line 208. -/
def foundLine (a : String) : String :=
  "You found: \"" ++ pyTake 400 a ++ (if 400 < a.length then "..." else "") ++ "\""

/-- The summary-parts loop of app.py lines 206-209: three lines per exchange
(user line, assistant line, blank line). -/
def renderExchanges : List (String × String) → List String
  | [] => []
  | (q, a) :: rest => userLine q :: foundLine a :: "" :: renderExchanges rest

/-- `get_conversation_summary` (app.py lines 163-214) applied to the row list
its SQL query returned: empty string when fewer than two rows or no complete
exchange, otherwise a labelled digest of the last two exchanges. -/
def get_conversation_summary (rows : List (String × String)) : String :=
  if rows.length < 2 then ""
  else
    let exchanges := pairExchanges rows
    if exchanges.isEmpty then ""
    else
      let lastTwo := exchanges.drop (exchanges.length - 2)
      "## Previous Context\n\n" ++ strJoin "\n" (renderExchanges lastTwo)

/-- Specification-side predicate: the row list contains at least one adjacent
`(user, assistant)` pair — one complete exchange. -/
def hasAdjPair : List (String × String) → Bool
  | (r1, _) :: (r2, c2) :: rest =>
    (r1 = "user" && r2 = "assistant") || hasAdjPair ((r2, c2) :: rest)
  | _ => false

/-! ## The JSON-RPC tool gateway (github-mcp-app/mcp_server.py, lines 241-332)

`handle_mcp_request` dispatches on the method string.  The three tool handlers
perform network calls; they are supplied as an oracle mapping a tool name and
arguments to either `.ok payload` (the handler returned and `json.dumps`
succeeded, `payload` being the dumped text) or `.error msg` (the handler or
the dump raised; the `except` clause turns it into a `-32603` error). -/

/-- Keys of the `TOOL_HANDLERS` dict, mcp_server.py lines 234-238. -/
def TOOL_HANDLERS_names : List String := ["search_code", "get_file", "list_sql_files"]

/-- The fields of an incoming MCP request that `handle_mcp_request` reads:
`method`, `id`, and for `tools/call` the `params.name` and
`params.arguments`. -/
structure McpRequest where
  method : String := ""
  id : Option String := none
  paramName : String := ""
  paramArgs : List (String × String) := []
deriving DecidableEq

/-- Result payload shapes of `handle_mcp_request`. -/
inductive McpResult
  | initInfo
  | toolsList
  | content (text : String)
deriving DecidableEq

/-- A gateway response: JSON-RPC result, JSON-RPC error (code and message), or
no response body (`None`, for notifications). -/
inductive McpResponse
  | result (id : Option String) (payload : McpResult)
  | rpcError (id : Option String) (code : Int) (message : String)
  | noResponse
deriving DecidableEq

/-- The error code of a response, `none` for results and notifications. -/
def McpResponse.errCode : McpResponse → Option Int
  | .rpcError _ code _ => some code
  | _ => none

/-- `handle_mcp_request` (mcp_server.py lines 241-332). -/
def handle_mcp_request (handlers : String → List (String × String) → Except String String)
    (req : McpRequest) : McpResponse :=
  if req.method = "initialize" then .result req.id .initInfo
  else if req.method = "tools/list" then .result req.id .toolsList
  else if req.method = "tools/call" then
    if (TOOL_HANDLERS_names.contains req.paramName) = false then
      .rpcError req.id (-32601) ("Unknown tool: " ++ req.paramName)
    else
      match handlers req.paramName req.paramArgs with
      | .ok text => .result req.id (.content text)
      | .error e => .rpcError req.id (-32603) e
  else if req.method = "notifications/initialized" then .noResponse
  else .rpcError req.id (-32601) ("Method not found: " ++ req.method)

/-! ## The orchestration loop (datascope-ui-app/app.py, lines 679-884)

`chat_with_llm` builds the message history, loops up to 5 gathering
iterations over the LLM endpoint with the tool catalog bound, dispatches the
requested tool calls, and finally forces a summary call without tools.  The
LLM endpoint and the three tool backends are network calls, supplied here as
oracles in `Env`; `env.llm k` is the outcome of the `k`-th HTTP call to the
endpoint (an exception raised by the HTTP/JSON machinery is `exc`, a non-200
status is `httpError`, and otherwise the parsed message content and tool
calls).  Best-effort persistence (`save_message`, `save_investigation`)
catches its own exceptions and has no effect on control flow, so it is not
modelled; `save_conversation` attempts are counted in `RunOut.convCreates`. -/

/-- Message roles of the chat protocol. -/
inductive Role
  | system
  | user
  | assistant
  | tool
deriving DecidableEq

/-- One tool call parsed from an LLM response: its `id`, function `name`, and
the JSON-decoded `arguments` object (a failed decode gives `[]`, matching the
bare `except` of app.py line 813). -/
structure ToolCall where
  id : String
  name : String
  args : List (String × String)
deriving DecidableEq

/-- Python's `args.get(key, "")` on the decoded arguments object. -/
def getArg (args : List (String × String)) (key : String) : String :=
  (args.lookup key).getD ""

/-- One message of the history `chat_with_llm` accumulates. -/
structure Msg where
  role : Role
  content : Option String := none
  tool_calls : List ToolCall := []
  tool_call_id : Option String := none
deriving DecidableEq

/-- Outcome of one HTTP call to the LLM serving endpoint. -/
inductive LLMResult
  | httpError (text : String)
  | exc (msg : String)
  | ok (content : String) (tool_calls : List ToolCall)

/-- The environment of one `chat_with_llm` run: the LLM endpoint and the
three tool backends (app.py `search_patterns`, `execute_sql`, `search_code`,
each of which catches its own exceptions and returns a string), and the
`get_conversation_summary` result for a conversation id. -/
structure Env where
  llm : Nat → LLMResult
  patterns : String → String
  sql : String → String
  code : String → String
  summaryCtx : String → String

/-- Tool dispatch of app.py lines 808-826: route by function name, unknown
names get an inline error string. -/
def dispatchTool (env : Env) (tc : ToolCall) : String :=
  if tc.name = "search_patterns" then env.patterns (getArg tc.args "query")
  else if tc.name = "execute_sql" then env.sql (getArg tc.args "query")
  else if tc.name = "search_code" then env.code (getArg tc.args "term")
  else "Unknown tool: " ++ tc.name

/-- The `tool_results_collected` entry appended for one tool call (app.py
lines 818, 821, 824); unknown tools append nothing. -/
def collectEntry (tc : ToolCall) : Option String :=
  if tc.name = "search_patterns" then
    some ("Pattern search: " ++ pyTake 50 (getArg tc.args "query") ++ "...")
  else if tc.name = "execute_sql" then
    some ("SQL: " ++ pyTake 100 (getArg tc.args "query") ++ "...")
  else if tc.name = "search_code" then
    some ("Code search: " ++ getArg tc.args "term")
  else none

/-- The assistant message appended before dispatching a batch (app.py lines
797-806): `content` is included only when non-empty and not all whitespace. -/
def assistantMsgOf (content : String) (tcs : List ToolCall) : Msg :=
  { role := Role.assistant
    tool_calls := tcs
    content := if pyStripChars content.toList = [] then none else some content }

/-- The tool-role message appended for one tool call (app.py lines 828-832). -/
def toolMsgOf (env : Env) (tc : ToolCall) : Msg :=
  { role := Role.tool
    content := some (dispatchTool env tc)
    tool_call_id := some tc.id }

/-- One dispatched batch as appended to the history: the assistant message
followed by one tool message per tool call, in the order the calls were
emitted. -/
def batchMsgs (env : Env) (content : String) (tcs : List ToolCall) : List Msg :=
  assistantMsgOf content tcs :: tcs.map (toolMsgOf env)

/-- The final-report heuristic of app.py lines 788-790: substantial content
(over 300 characters) containing one of the expected section markers. -/
def finalReportKeywords : List String :=
  ["**What I Found**", "**The Problem**", "Root Cause", "How to Fix"]

/-- Decides the heuristic of app.py lines 788-790. -/
def isFinalReport (content : String) : Bool :=
  (!(content = "")) && (300 < content.length)
    && finalReportKeywords.any (fun kw => hasInfixStr kw content)

/-- In-flight state of one `chat_with_llm` run: the accumulated message
history, the `tool_results_collected` list, the number of LLM calls made so
far, and a log of the issued LLM requests (`true` = tool catalog bound). -/
structure RunState where
  messages : List Msg
  collected : List String
  calls : Nat
  requests : List Bool

/-- Records one issued LLM request. -/
def bump (st : RunState) (withTools : Bool) : RunState :=
  { st with calls := st.calls + 1, requests := st.requests ++ [withTools] }

/-- State extension for one dispatched batch: the assistant message, the tool
result messages in call order, and the collected tool descriptions. -/
def appendBatch (env : Env) (st : RunState) (content : String) (tcs : List ToolCall) :
    RunState :=
  { st with
    messages := st.messages ++ batchMsgs env content tcs
    collected := st.collected ++ tcs.filterMap collectEntry }

/-- Gathering phase of `chat_with_llm` (app.py lines 759-832): up to `fuel`
iterations (`for iteration in range(5)`), each issuing one LLM call with the
tool catalog bound.  Returns the updated state and `some text` when the run
returns `text` directly (LLM error, exception, or content accepted as final),
or `none` when it falls through to the forced-summary phase (a content-free
response without tool calls, or fuel exhausted). -/
def phase1 (env : Env) : Nat → RunState → RunState × Option String
  | 0, st => (st, none)
  | fuel + 1, st =>
    let st1 := bump st true
    match env.llm st.calls with
    | LLMResult.httpError t => (st1, some ("LLM Error: " ++ pyTake 300 t))
    | LLMResult.exc m => (st1, some ("Error: " ++ m))
    | LLMResult.ok content tcs =>
      if tcs = [] then
        if content = "" then (st1, none) else (st1, some content)
      else if isFinalReport content then (st1, some content)
      else phase1 env fuel (appendBatch env st1 content tcs)

/-- The forced-summary instruction of app.py lines 835-850. -/
def summaryPrompt : String :=
  "Based on your investigation above, provide your final answer to the user's question.\n\nYou MUST respond with a clear explanation, NOT with more tool calls.\n\nFormat your response as:\n**What I Found:** [One sentence summary of the issue]\n\n**The Problem:** [Explain what's wrong in simple terms]\n\n**Why It Happened:** [Root cause - what in the data/code caused this]\n\n**How Many Records:** [Quantify the impact - X records affected, Y% of total, etc.]\n\n**How to Fix It:** [Specific actionable recommendation]\n\nWrite this response NOW."

/-- The synthesized fallback of app.py line 877, listing the first five
collected tool descriptions. -/
def fallbackMessage (collected : List String) : String :=
  "**Investigation completed** but the model didn't generate a summary.\n\nTools used during investigation:\n"
    ++ strJoin "\n" ((collected.take 5).map (fun r => "- " ++ r))
    ++ "\n\nPlease try rephrasing your question."

/-- The fixed apology of app.py line 881, used when no tools were invoked. -/
def apologyMessage : String :=
  "I wasn't able to complete the investigation. Please try a different question."

/-- Forced-summary phase of `chat_with_llm` (app.py lines 834-881): append the
summary instruction, issue exactly one LLM call without the tool catalog, and
fall back to a synthesized message when its content is empty. -/
def phase2 (env : Env) (st : RunState) : RunState × String :=
  let stm := { st with
    messages := st.messages ++ [{ role := Role.user, content := some summaryPrompt }] }
  let st2 := bump stm false
  match env.llm stm.calls with
  | LLMResult.httpError t => (st2, "Error generating summary: " ++ pyTake 200 t)
  | LLMResult.exc m => (st2, "Error: " ++ m)
  | LLMResult.ok content _ =>
    if content = "" then
      if st2.collected = [] then (st2, apologyMessage)
      else (st2, fallbackMessage st2.collected)
    else (st2, content)

/-- The system prompt of app.py lines 268-302. -/
def SYSTEM_PROMPT : String :=
  "You are DataScope, a Data Debugging Agent for NovaTech's Databricks data platform.\n\nYour job is to investigate data quality issues and explain them in clear, simple English.\n\n## Investigation Strategy\n\n1. **FIRST**: Use search_patterns to find similar past issues - this gives you context and suggested SQL\n2. **THEN**: Use execute_sql to verify the issue with actual data\n3. **OPTIONALLY**: Use search_code to find the transformation that caused the bug\n\n## Available Tables\n\n**Gold Layer (Business Metrics):**\n- novatech.gold.churn_predictions - Customer churn risk scores\n- novatech.gold.arr_by_customer - Annual Recurring Revenue\n- novatech.gold.customer_health_scores - Customer health metrics\n\n**Silver Layer:** novatech.silver.dim_customers, fct_subscriptions, fct_payments, fct_product_usage\n**Bronze Layer:** novatech.bronze.salesforce_accounts_raw, stripe_payments_raw, product_events_raw\n\n## How to Respond\n\nStructure your response like this:\n\n**What I Found:** [One sentence summary]\n\n**The Problem:** [Explain the issue simply]\n\n**Why It Happened:** [The root cause, explained clearly]\n\n**How Many Records:** [Quantify the impact]\n\n**How to Fix It:** [Specific recommendation]\n\nExplain things like you're talking to a smart colleague who doesn't know SQL.\n"

/-- Everything `chat_with_llm` produces that the claims observe: the returned
`(response_text, conversation_id)` pair, the final message history, the log of
issued LLM requests, and the number of `save_conversation` attempts. -/
structure RunOut where
  response : String
  convId : String
  messages : List Msg
  requests : List Bool
  convCreates : Nat

/-- The conversation id a run uses: the caller-supplied one, or `freshId`
when none was supplied (Python's `if not conversation_id:` treats both `None`
and `""` as absent, app.py lines 693-695). -/
def convIdOf (conversation_id : Option String) (freshId : String) : String :=
  match conversation_id with
  | none => freshId
  | some c => if c = "" then freshId else c

/-- Number of `save_conversation` attempts a run makes: one when a fresh id
was generated (app.py line 695), zero otherwise. -/
def convCreatesOf (conversation_id : Option String) : Nat :=
  match conversation_id with
  | none => 1
  | some c => if c = "" then 1 else 0

/-- The initial run state (app.py lines 736-756): system message — with the
prior-context digest appended when non-empty — followed by the user
question. -/
def initState (env : Env) (question : String) (convId : String) : RunState :=
  let ctx := env.summaryCtx convId
  let sysContent :=
    if ctx = "" then SYSTEM_PROMPT
    else SYSTEM_PROMPT ++ "\n\n" ++ ctx
      ++ "\n\nNow answer the user's follow-up question using the context above."
  { messages := [{ role := Role.system, content := some sysContent },
                 { role := Role.user, content := some question }]
    collected := []
    calls := 0
    requests := [] }

/-- `chat_with_llm` (app.py lines 679-884).  `conversation_id` is the optional
caller-supplied id (Python treats both `None` and `""` as absent); `freshId`
is the value `generate_id()` would produce when a fresh id is needed. -/
def chat_with_llm (env : Env) (question : String) (conversation_id : Option String)
    (freshId : String) : RunOut :=
  let convId := convIdOf conversation_id freshId
  match phase1 env 5 (initState env question convId) with
  | (st1, some text) =>
    { response := text, convId := convId, messages := st1.messages
      requests := st1.requests, convCreates := convCreatesOf conversation_id }
  | (st1, none) =>
    let p := phase2 env st1
    { response := p.2, convId := convId, messages := p.1.messages
      requests := p.1.requests, convCreates := convCreatesOf conversation_id }

/-! ## Claim-side definitions -/

/-- The truncation footer of tools.py line 341, as a function of the shown
and reported row counts. -/
def sqlFooter (shown total : Nat) : String :=
  "\n*Showing " ++ toString shown ++ " of " ++ toString total ++ " rows*"

/-- The synthetic user message `phase2` appends (app.py line 852). -/
def summaryUserMsg : Msg := { role := Role.user, content := some summaryPrompt }

/-- Structural invariant of a message history: it is built from non-tool
messages and complete dispatched batches — each batch an assistant message
carrying tool calls followed by exactly one tool message per call, in call
order, with matching ids (`batchMsgs`). -/
inductive Chunked (env : Env) : List Msg → Prop
  | nil : Chunked env []
  | plain (ms : List Msg) (m : Msg) : m.role ≠ Role.tool → Chunked env ms →
      Chunked env (ms ++ [m])
  | batch (ms : List Msg) (content : String) (tcs : List ToolCall) : Chunked env ms →
      Chunked env (ms ++ batchMsgs env content tcs)

/-- Tool-call/tool-result pairing of a message history: every tool message
at position `i` has a nearest preceding assistant message at some position
`j` (only tool messages in between), the tool message is exactly the
dispatched result of that assistant message's `(i - j - 1)`-th tool call —
so ids correlate positionally, results appear in the order the calls were
emitted, and an unknown tool name yields its inline error result in its
position (`toolMsgOf`/`dispatchTool`). -/
def PairProp (env : Env) (ms : List Msg) : Prop :=
  ∀ (i : Nat) (hi : i < ms.length), ms[i].role = Role.tool →
    ∃ (j : Nat) (hj : j < ms.length), j < i ∧
      ms[j].role = Role.assistant ∧
      ∃ ht : i - j - 1 < ms[j].tool_calls.length,
        ms[i] = toolMsgOf env (ms[j].tool_calls[i - j - 1]) ∧
        ∀ (k : Nat) (hk : k < ms.length), j < k → k < i → ms[k].role = Role.tool

/-! ## Fixture inputs used by witness and counterexample theorems -/

/-- A query that contains `CREATE` but starts with `SELECT`: the tools.py
deny-list does not contain `CREATE`, so validation lets it through. -/
def createBypassQuery : String := "SELECT 1; CREATE TABLE t2 AS SELECT 1"

/-- A 16-row single-column API response, one row over the cap. -/
def sqlRespW : SqlApiSuccess :=
  { columns := ["c"], data_array := List.replicate 16 [some "v"], row_count := some 16 }

/-- A handler oracle whose every call succeeds with an empty payload. -/
def mcpHandlersW : String → List (String × String) → Except String String :=
  fun _ _ => Except.ok "{}"

/-- A `tools/call` request for a known tool. -/
def mcpReqW : McpRequest :=
  { method := "tools/call", id := some "1", paramName := "get_file",
    paramArgs := [("file_path", "sql/gold/churn.sql")] }

/-- Content longer than 300 characters containing the `Root Cause` marker:
triggers the final-report heuristic of app.py lines 788-790. -/
def longC2 : String := "Root Cause " ++ String.mk (List.replicate 300 'a')

/-- A well-formed `execute_sql` tool call. -/
def tcC2 : ToolCall := { id := "call-1", name := "execute_sql", args := [("query", "SELECT 1")] }

/-- A tool call naming a tool that is not in the catalog. -/
def tcB : ToolCall := { id := "call-2", name := "mystery_tool", args := [] }

/-- Environment whose LLM always answers with the long marker content AND a
pending tool call. -/
def envC2 : Env :=
  { llm := fun _ => LLMResult.ok longC2 [tcC2]
    patterns := fun _ => ""
    sql := fun _ => ""
    code := fun _ => ""
    summaryCtx := fun _ => "" }

/-- Environment whose LLM requests two tool calls (one unknown) and then
answers with plain text. -/
def envW4 : Env :=
  { llm := fun k => if k = 0 then LLMResult.ok "" [tcC2, tcB] else LLMResult.ok "done" []
    patterns := fun q => "patterns:" ++ q
    sql := fun q => "sql:" ++ q
    code := fun t => "code:" ++ t
    summaryCtx := fun _ => "" }

/-- A mid-run state with empty history. -/
def stW2 : RunState := { messages := [], collected := [], calls := 0, requests := [] }

/-- The history produced by the `envW4` run: system, user, assistant (two
tool calls), and the two tool results. -/
def msgsW4 : List Msg := (chat_with_llm envW4 "q" none "c").messages

/-- Position of the second tool result (the unknown tool's inline error) in
`msgsW4`. -/
def idxW4 : Fin msgsW4.length := ⟨4, by decide⟩

/-! ## General helper lemmas -/

theorem strLength_data (s : String) : s.length = s.data.length := rfl

theorem str_eq_empty_of_length (s : String) (h : s.length = 0) : s = "" :=
  String.ext (List.length_eq_zero.mp h)

theorem str_pos_append_left (s t : String) (h : 0 < s.length) : 0 < (s ++ t).length := by
  rw [String.length_append]; omega

theorem str_pos_of_ne_empty (s : String) (h : s ≠ "") : 0 < s.length := by
  rcases Nat.eq_zero_or_pos s.length with h0 | h0
  · exact absurd (str_eq_empty_of_length s h0) h
  · exact h0

theorem pyTake_length_le (n : Nat) (s : String) : (pyTake n s).length ≤ n := by
  show (s.toList.take n).length ≤ n
  rw [List.length_take]
  exact Nat.min_le_left n _

/-! ## Claim C3: read-only SQL validation -/

/-- Claim C3 counterexample: `createBypassQuery` contains the keyword
`CREATE` (in its normalized uppercase form), yet `execute_sql` validation
accepts it (returns `none`, so the query is sent to the warehouse), because
`CREATE` is absent from the tools.py deny-list.  The claim as stated — that
queries containing `CREATE` anywhere are rejected — is false for the cited
implementation. -/
theorem execute_sql_create_bypass :
    hasInfix "CREATE".toList (queryUpper createBypassQuery) = true ∧
    execute_sql_validation createBypassQuery = none :=
  ⟨rfl, rfl⟩

/-- Claim C3 (amended): `execute_sql` accepts a query exactly when its
normalized uppercase form starts with one of SELECT, DESCRIBE, DESC, SHOW and
contains none of the deny-listed keywords DROP, DELETE, UPDATE, INSERT,
ALTER, TRUNCATE (`CREATE` is not on the deny-list); a failed verb check
yields the for-safety error string, a deny-list hit yields the read-only
error string; in particular `SELECT * FROM t; DROP TABLE t` is rejected
despite its `SELECT` prefix. -/
theorem execute_sql_readonly_validation (q : String) :
    (execute_sql_validation q = none ↔
      (startsAllowed q = true ∧ containsDenied q = false)) ∧
    (startsAllowed q = false → execute_sql_validation q = some prefixRejection) ∧
    (startsAllowed q = true → containsDenied q = true →
      execute_sql_validation q = some keywordRejection) ∧
    execute_sql_validation "SELECT * FROM t; DROP TABLE t" = some keywordRejection := by
  refine ⟨?_, ?_, ?_, rfl⟩
  · unfold execute_sql_validation
    cases h1 : startsAllowed q <;> cases h2 : containsDenied q <;> simp
  · intro h1; unfold execute_sql_validation; simp [h1]
  · intro h1 h2; unfold execute_sql_validation; simp [h1, h2]

/-! ## Claim C5: result truncation of the SQL tool -/

/-- Claim C5: for a successful query whose result set (`row_count`, matching
the returned `data_array`) exceeds the cap of 15 rows, `execute_sql` renders
exactly `MAX_ROWS` = 15 rows, reports a total that is at least the number of
rows rendered, and its output ends with the `Showing N of M rows` truncation
footer. -/
theorem execute_sql_truncation (r : SqlApiSuccess) (N : Nat)
    (hrc : r.row_count = some N) (hlen : r.data_array.length = N)
    (hN : MAX_ROWS < N) :
    rowsReturned r = MAX_ROWS ∧
    reportedTotal r = N ∧
    rowsReturned r ≤ reportedTotal r ∧
    ∃ pre, execute_sql_success r = pre ++ sqlFooter (rowsReturned r) (reportedTotal r) := by
  have hrows : rowsReturned r = MAX_ROWS := by
    unfold rowsReturned
    rw [List.length_take, hlen]
    omega
  have htot : reportedTotal r = N := by unfold reportedTotal; rw [hrc]; rfl
  refine ⟨hrows, htot, by rw [hrows, htot]; exact Nat.le_of_lt hN, ?_⟩
  have hne : (r.data_array.take MAX_ROWS).isEmpty = false := by
    have h15 : (r.data_array.take MAX_ROWS).length = MAX_ROWS := hrows
    rcases hq : r.data_array.take MAX_ROWS with _ | ⟨x, xs⟩
    · rw [hq] at h15
      simp [MAX_ROWS] at h15
    · rfl
  refine ⟨"```\n" ++ ("| " ++ strJoin " | " r.columns ++ " |") ++ "\n"
    ++ ("| " ++ strJoin " | " (List.replicate r.columns.length "---") ++ " |") ++ "\n"
    ++ strJoin "\n" ((r.data_array.take MAX_ROWS).map (fun row =>
         "| " ++ strJoin " | " (row.map (fun v => v.getD "NULL")) ++ " |"))
    ++ "\n```", ?_⟩
  unfold execute_sql_success
  simp only [hne, Bool.false_eq_true, if_false, hrc, Option.getD_some]
  rw [if_pos (by omega : MAX_ROWS < N)]
  unfold sqlFooter
  have h2 : (r.data_array.take MAX_ROWS).length = MAX_ROWS := hrows
  rw [hrows, htot, h2]

/-- Claim C5 witness: the bound instantiated on a concrete 16-row response. -/
theorem execute_sql_truncation_witness :
    rowsReturned sqlRespW = MAX_ROWS ∧
    reportedTotal sqlRespW = 16 ∧
    rowsReturned sqlRespW ≤ reportedTotal sqlRespW ∧
    ∃ pre, execute_sql_success sqlRespW =
      pre ++ sqlFooter (rowsReturned sqlRespW) (reportedTotal sqlRespW) :=
  execute_sql_truncation sqlRespW 16 rfl (by decide) (by decide)

/-! ## Claim C6: bounded prior-turn digest -/

theorem pairExchanges_bound : ∀ (rows : List (String × String)) (p : String × String),
    p ∈ pairExchanges rows → p.1.length ≤ 200 ∧ p.2.length ≤ 500 := by
  intro rows
  induction rows using pairExchanges.induct with
  | case1 => intro p hp; simp [pairExchanges] at hp
  | case2 x => intro p hp; simp [pairExchanges] at hp
  | case3 r1 c1 r2 c2 rest h ih =>
    intro p hp
    rw [pairExchanges, if_pos h] at hp
    rcases List.mem_cons.mp hp with rfl | hp
    · exact ⟨pyTake_length_le 200 c1, pyTake_length_le 500 c2⟩
    · exact ih p hp
  | case4 r1 c1 r2 c2 rest h ih =>
    intro p hp
    rw [pairExchanges, if_neg h] at hp
    exact ih p hp

theorem pairExchanges_nil_of_no_pair :
    ∀ rows, hasAdjPair rows = false → pairExchanges rows = [] := by
  intro rows
  induction rows using pairExchanges.induct with
  | case1 => intro _; rfl
  | case2 x => intro _; rfl
  | case3 r1 c1 r2 c2 rest h ih =>
    intro hap
    simp [hasAdjPair, h.1, h.2] at hap
  | case4 r1 c1 r2 c2 rest h ih =>
    intro hap
    simp [hasAdjPair] at hap
    rw [pairExchanges, if_neg h]
    exact ih hap.2

theorem userLine_length (q : String) (h : q.length ≤ 200) : (userLine q).length ≤ 214 := by
  have e1 : ("User asked: \"" : String).length = 13 := rfl
  have e2 : ("\"" : String).length = 1 := rfl
  unfold userLine
  rw [String.length_append, String.length_append, e1, e2]
  omega

theorem foundLine_length (a : String) : (foundLine a).length ≤ 416 := by
  have e1 : ("You found: \"" : String).length = 12 := rfl
  have e2 : ("\"" : String).length = 1 := rfl
  have e3 : ("..." : String).length = 3 := rfl
  have e4 : ("" : String).length = 0 := rfl
  have ht := pyTake_length_le 400 a
  unfold foundLine
  rw [String.length_append, String.length_append, String.length_append, e1, e2]
  by_cases hc : 400 < a.length
  · rw [if_pos hc, e3]; omega
  · rw [if_neg hc, e4]; omega

theorem render_join_bound (l : List (String × String)) (hlen : l.length ≤ 2)
    (hb : ∀ p ∈ l, p.1.length ≤ 200 ∧ p.2.length ≤ 500) :
    (strJoin "\n" (renderExchanges l)).length ≤ 1265 := by
  have e1 : ("\n" : String).length = 1 := rfl
  have e0 : ("" : String).length = 0 := rfl
  match l with
  | [] => simp [renderExchanges, strJoin]
  | [(q, a)] =>
    have hu := userLine_length q (hb (q, a) (by simp)).1
    have hf := foundLine_length a
    show (userLine q ++ "\n" ++ (foundLine a ++ "\n" ++ "")).length ≤ 1265
    simp only [String.length_append, e1, e0]
    omega
  | [(q1, a1), (q2, a2)] =>
    have hu1 := userLine_length q1 (hb (q1, a1) (by simp)).1
    have hf1 := foundLine_length a1
    have hu2 := userLine_length q2 (hb (q2, a2) (by simp)).1
    have hf2 := foundLine_length a2
    show (userLine q1 ++ "\n" ++ (foundLine a1 ++ "\n" ++ ("" ++ "\n"
      ++ (userLine q2 ++ "\n" ++ (foundLine a2 ++ "\n" ++ ""))))).length ≤ 1265
    simp only [String.length_append, e1, e0]
    omega
  | p1 :: p2 :: p3 :: rest => simp at hlen

/-- Claim C6: the prior-turn digest is bounded by the fixed constant 1286
characters for every stored row list (it keeps only the last two exchanges,
each user side truncated to 200 characters and each assistant side to
400-of-500 characters), and it is the empty string — not an error — whenever
the rows contain no complete adjacent `(user, assistant)` exchange. -/
theorem get_conversation_summary_properties (rows : List (String × String)) :
    (get_conversation_summary rows).length ≤ 1286 ∧
    (hasAdjPair rows = false → get_conversation_summary rows = "") := by
  constructor
  · simp only [get_conversation_summary]
    by_cases h1 : rows.length < 2
    · simp [h1]
    · rw [if_neg h1]
      by_cases h2 : (pairExchanges rows).isEmpty = true
      · simp [h2]
      · rw [if_neg h2]
        have hlen2 : ((pairExchanges rows).drop ((pairExchanges rows).length - 2)).length ≤ 2 := by
          rw [List.length_drop]; omega
        have hmem : ∀ p ∈ (pairExchanges rows).drop ((pairExchanges rows).length - 2),
            p.1.length ≤ 200 ∧ p.2.length ≤ 500 :=
          fun p hp => pairExchanges_bound rows p (List.drop_subset _ _ hp)
        have hj := render_join_bound _ hlen2 hmem
        have e21 : ("## Previous Context\n\n" : String).length = 21 := rfl
        rw [String.length_append, e21]
        omega
  · intro hap
    simp only [get_conversation_summary]
    by_cases h1 : rows.length < 2
    · simp [h1]
    · rw [if_neg h1, pairExchanges_nil_of_no_pair rows hap]
      rfl

/-! ## Claim C7: gateway error codes -/

/-- Claim C7 counterexample: an unknown tool name in a `tools/call` request
and an unknown method both produce JSON-RPC error code `-32601` in
`handle_mcp_request` — the two failure kinds share one code (they differ only
in the message text), so they are NOT distinguishable by code as the claim
states. -/
theorem mcp_same_code_counterexample :
    (handle_mcp_request mcpHandlersW
      { method := "tools/call", paramName := "nonexistent_tool" }).errCode = some (-32601) ∧
    (handle_mcp_request mcpHandlersW { method := "bogus/method" }).errCode = some (-32601) ∧
    handle_mcp_request mcpHandlersW
      { method := "tools/call", paramName := "nonexistent_tool" } =
      McpResponse.rpcError none (-32601) "Unknown tool: nonexistent_tool" ∧
    handle_mcp_request mcpHandlersW { method := "bogus/method" } =
      McpResponse.rpcError none (-32601) "Method not found: bogus/method" :=
  ⟨rfl, rfl, rfl, rfl⟩

/-- Claim C7 (amended): unknown tool and unknown method each yield a
structured JSON-RPC error response, but both use the same code `-32601`; the
two failure kinds are distinguishable only by their message prefixes
(`Unknown tool:` vs `Method not found:`), not by code; handler failures use
the separate code `-32603`. -/
theorem mcp_error_structure (handlers : String → List (String × String) → Except String String)
    (req : McpRequest) :
    (req.method = "tools/call" → TOOL_HANDLERS_names.contains req.paramName = false →
      handle_mcp_request handlers req =
        McpResponse.rpcError req.id (-32601) ("Unknown tool: " ++ req.paramName)) ∧
    (req.method ∉ ["initialize", "tools/list", "tools/call", "notifications/initialized"] →
      handle_mcp_request handlers req =
        McpResponse.rpcError req.id (-32601) ("Method not found: " ++ req.method)) ∧
    (∀ e, req.method = "tools/call" → TOOL_HANDLERS_names.contains req.paramName = true →
      handlers req.paramName req.paramArgs = Except.error e →
      handle_mcp_request handlers req = McpResponse.rpcError req.id (-32603) e) := by
  refine ⟨?_, ?_, ?_⟩
  · intro hm hname
    unfold handle_mcp_request
    rw [hm]
    rw [if_neg (by decide), if_neg (by decide), if_pos rfl, if_pos (by rw [hname])]
  · intro hm
    simp only [List.mem_cons, not_or] at hm
    obtain ⟨h1, h2, h3, h4, _⟩ := hm
    unfold handle_mcp_request
    rw [if_neg h1, if_neg h2, if_neg h3, if_neg h4]
  · intro e hm hname he
    unfold handle_mcp_request
    rw [hm]
    rw [if_neg (by decide), if_neg (by decide), if_pos rfl, if_neg (by rw [hname]; decide), he]

/-! ## Claim C8: the gateway never lets a handler exception escape -/

/-- Claim C8: every `tools/call` request produces a JSON-RPC response that is
either a result whose `content[0].text` is exactly the handler's JSON-dumped
payload, or an error object carrying code `-32601` (unknown tool) or `-32603`
(handler raised); handler exceptions never propagate out of
`handle_mcp_request`. -/
theorem mcp_tools_call_total (handlers : String → List (String × String) → Except String String)
    (req : McpRequest) (hm : req.method = "tools/call") :
    (∃ t, handle_mcp_request handlers req = McpResponse.result req.id (McpResult.content t) ∧
          handlers req.paramName req.paramArgs = Except.ok t) ∨
    (∃ c m, handle_mcp_request handlers req = McpResponse.rpcError req.id c m ∧
            (c = -32601 ∨ c = -32603)) := by
  unfold handle_mcp_request
  rw [hm]
  rw [if_neg (by decide), if_neg (by decide), if_pos rfl]
  by_cases hname : TOOL_HANDLERS_names.contains req.paramName = true
  · rw [if_neg (by rw [hname]; decide)]
    rcases hh : handlers req.paramName req.paramArgs with e | t
    · exact Or.inr ⟨-32603, e, rfl, Or.inr rfl⟩
    · exact Or.inl ⟨t, rfl, rfl⟩
  · rw [if_pos (by simpa using hname)]
    exact Or.inr ⟨-32601, "Unknown tool: " ++ req.paramName, rfl, Or.inl rfl⟩

/-- Claim C8 witness: the contract instantiated on a concrete `tools/call`
request for a known tool with a succeeding handler. -/
theorem mcp_tools_call_total_witness :
    (∃ t, handle_mcp_request mcpHandlersW mcpReqW =
            McpResponse.result mcpReqW.id (McpResult.content t) ∧
          mcpHandlersW mcpReqW.paramName mcpReqW.paramArgs = Except.ok t) ∨
    (∃ c m, handle_mcp_request mcpHandlersW mcpReqW = McpResponse.rpcError mcpReqW.id c m ∧
            (c = -32601 ∨ c = -32603)) :=
  mcp_tools_call_total mcpHandlersW mcpReqW rfl

/-! ## Lemmas about the orchestration loop -/

theorem phase1_requests_shape (env : Env) :
    ∀ (fuel : Nat) (st : RunState), ∃ n, n ≤ fuel ∧
      ((phase1 env fuel st).1).requests = st.requests ++ List.replicate n true := by
  intro fuel
  induction fuel with
  | zero => intro st; exact ⟨0, Nat.le_refl 0, by simp [phase1]⟩
  | succ fuel ih =>
    intro st
    rcases h : env.llm st.calls with t | m | ⟨content, tcs⟩
    · exact ⟨1, by omega, by simp [phase1, h, bump, List.replicate]⟩
    · exact ⟨1, by omega, by simp [phase1, h, bump, List.replicate]⟩
    · by_cases htc : tcs = []
      · by_cases hct : content = ""
        · exact ⟨1, by omega, by simp [phase1, h, htc, hct, bump, List.replicate]⟩
        · exact ⟨1, by omega, by simp [phase1, h, htc, hct, bump, List.replicate]⟩
      · by_cases hfr : isFinalReport content = true
        · exact ⟨1, by omega, by simp [phase1, h, htc, hfr, bump, List.replicate]⟩
        · obtain ⟨n, hn, hr⟩ := ih (appendBatch env (bump st true) content tcs)
          refine ⟨n + 1, by omega, ?_⟩
          simp only [phase1, h, htc, hfr, if_neg, if_false, Bool.false_eq_true]
          rw [hr]
          show (st.requests ++ [true]) ++ List.replicate n true
            = st.requests ++ List.replicate (n + 1) true
          simp [List.replicate_succ, List.append_assoc]

theorem phase2_state (env : Env) (st : RunState) :
    (phase2 env st).1.requests = st.requests ++ [false] ∧
    (phase2 env st).1.messages = st.messages ++ [summaryUserMsg] ∧
    (phase2 env st).1.collected = st.collected := by
  simp only [phase2]
  rcases h : env.llm st.calls with t | m | ⟨content, tcs⟩
  · simp [h, bump, summaryUserMsg]
  · simp [h, bump, summaryUserMsg]
  · simp only [h, bump, summaryUserMsg]
    split_ifs <;> simp

theorem isFinalReport_content_ne (content : String) (h : isFinalReport content = true) :
    content ≠ "" := by
  simp only [isFinalReport, Bool.and_eq_true, Bool.not_eq_true] at h
  intro hc
  rw [hc] at h
  simp at h

theorem phase1_some_pos (env : Env) :
    ∀ (fuel : Nat) (st : RunState) (text : String),
      (phase1 env fuel st).2 = some text → 0 < text.length := by
  intro fuel
  induction fuel with
  | zero => intro st text h; simp [phase1] at h
  | succ fuel ih =>
    intro st text h
    rcases hl : env.llm st.calls with t | m | ⟨content, tcs⟩
    · simp [phase1, hl] at h
      rw [← h]
      exact str_pos_append_left _ _ (by decide)
    · simp [phase1, hl] at h
      rw [← h]
      exact str_pos_append_left _ _ (by decide)
    · by_cases htc : tcs = []
      · by_cases hct : content = ""
        · simp [phase1, hl, htc, hct] at h
        · simp [phase1, hl, htc, hct] at h
          rw [← h]
          exact str_pos_of_ne_empty content hct
      · by_cases hfr : isFinalReport content = true
        · simp [phase1, hl, htc, hfr] at h
          rw [← h]
          exact str_pos_of_ne_empty content (isFinalReport_content_ne content hfr)
        · simp only [phase1, hl, htc, hfr, if_neg, if_false, Bool.false_eq_true] at h
          exact ih (appendBatch env (bump st true) content tcs) text h

theorem fallbackMessage_pos (collected : List String) :
    0 < (fallbackMessage collected).length :=
  str_pos_append_left _ _ (str_pos_append_left _ _ (by decide))

theorem phase2_snd_pos (env : Env) (st : RunState) : 0 < (phase2 env st).2.length := by
  simp only [phase2]
  rcases h : env.llm st.calls with t | m | ⟨content, tcs⟩
  · simp only [h]
    exact str_pos_append_left _ _ (by decide)
  · simp only [h]
    exact str_pos_append_left _ _ (by decide)
  · simp only [h, bump]
    by_cases hct : content = ""
    · by_cases hcol : st.collected = []
      · simp [hct, hcol]
        decide
      · simp [hct, hcol]
        exact fallbackMessage_pos st.collected
    · simp [hct]
      exact str_pos_of_ne_empty content hct

/-! ## Claim C1: bounded number of LLM calls -/

/-- Claim C1: for every environment (hence every sequence of LLM responses
and tool behaviors) and every input, `chat_with_llm` terminates having issued
at most 5 tool-bound gathering calls followed by at most one finalization
call without the tool catalog — at most 6 LLM calls in total (the request
log is `n ≤ 5` tool-bound entries, optionally followed by one unbound
entry). -/
theorem chat_with_llm_call_bound (env : Env) (q : String) (cid : Option String)
    (fresh : String) :
    (chat_with_llm env q cid fresh).requests.length ≤ 6 ∧
    ∃ n, n ≤ 5 ∧
      ((chat_with_llm env q cid fresh).requests = List.replicate n true ∨
       (chat_with_llm env q cid fresh).requests = List.replicate n true ++ [false]) := by
  obtain ⟨n, hn, hr⟩ := phase1_requests_shape env 5 (initState env q (convIdOf cid fresh))
  have hinit : (initState env q (convIdOf cid fresh)).requests = [] := rfl
  rw [hinit] at hr
  simp only [List.nil_append] at hr
  rcases hp : phase1 env 5 (initState env q (convIdOf cid fresh)) with ⟨st1, r⟩
  rw [hp] at hr
  have hst1 : st1.requests = List.replicate n true := hr
  cases r with
  | some text =>
    have hout : (chat_with_llm env q cid fresh).requests = st1.requests := by
      simp [chat_with_llm, hp]
    constructor
    · rw [hout, hst1, List.length_replicate]; omega
    · exact ⟨n, hn, Or.inl (by rw [hout, hst1])⟩
  | none =>
    have hout : (chat_with_llm env q cid fresh).requests = (phase2 env st1).1.requests := by
      simp [chat_with_llm, hp]
    have hp2 := (phase2_state env st1).1
    constructor
    · rw [hout, hp2, hst1]
      simp [List.length_replicate]
      omega
    · exact ⟨n, hn, Or.inr (by rw [hout, hp2, hst1])⟩

/-! ## Claim C9: the response text is never empty -/

/-- Claim C9: `chat_with_llm` never returns an empty response text — every
return path produces a non-empty string — and in particular, when the forced
finalization call returns empty content, the run returns the deterministic
synthesized `fallbackMessage` listing the collected tool invocations
(`phase2` on a state with non-empty `collected`), or the fixed apology when
no tools were invoked. -/
theorem chat_with_llm_response_nonempty (env : Env) (q : String) (cid : Option String)
    (fresh : String) :
    0 < (chat_with_llm env q cid fresh).response.length ∧
    (∀ (st : RunState) (tcs : List ToolCall),
      env.llm st.calls = LLMResult.ok "" tcs →
      (phase2 env st).2 =
        if st.collected = [] then apologyMessage else fallbackMessage st.collected) := by
  constructor
  · rcases hp : phase1 env 5 (initState env q (convIdOf cid fresh)) with ⟨st1, r⟩
    cases r with
    | some text =>
      have hout : (chat_with_llm env q cid fresh).response = text := by
        simp [chat_with_llm, hp]
      rw [hout]
      exact phase1_some_pos env 5 _ text (by rw [hp])
    | none =>
      have hout : (chat_with_llm env q cid fresh).response = (phase2 env st1).2 := by
        simp [chat_with_llm, hp]
      rw [hout]
      exact phase2_snd_pos env st1
  · intro st tcs hllm
    simp only [phase2, bump]
    simp only [hllm]
    by_cases hcol : st.collected = []
    · simp [hcol]
    · simp [hcol]

/-! ## Claim C10: conversation-id threading -/

/-- Claim C10: when a non-empty conversation id is supplied, every path of
`chat_with_llm` returns exactly that id and attempts no conversation-creation
write; when none is supplied, the fresh id is returned and exactly one
creation write is attempted. -/
theorem chat_with_llm_conversation_id (env : Env) (q fresh : String) :
    (∀ cid : String, cid ≠ "" →
      (chat_with_llm env q (some cid) fresh).convId = cid ∧
      (chat_with_llm env q (some cid) fresh).convCreates = 0) ∧
    ((chat_with_llm env q none fresh).convId = fresh ∧
     (chat_with_llm env q none fresh).convCreates = 1) := by
  constructor
  · intro cid hcid
    have h1 : convIdOf (some cid) fresh = cid := by simp [convIdOf, hcid]
    have h2 : convCreatesOf (some cid) = 0 := by simp [convCreatesOf, hcid]
    rcases hp : phase1 env 5 (initState env q (convIdOf (some cid) fresh)) with ⟨st1, r⟩
    rw [h1] at hp
    cases r <;> simp [chat_with_llm, hp, h1, h2]
  · have h1 : convIdOf none fresh = fresh := rfl
    have h2 : convCreatesOf none = 1 := rfl
    rcases hp : phase1 env 5 (initState env q (convIdOf none fresh)) with ⟨st1, r⟩
    rw [h1] at hp
    cases r <;> simp [chat_with_llm, hp, h1, h2]

/-! ## Claim C2: tool-call dispatch during the gathering phase -/

set_option maxRecDepth 8192 in
/-- Claim C2 counterexample: with `envC2` the very first gathering response
carries one pending tool call together with long marker-bearing content
(`longC2`); `chat_with_llm` returns that content as the final answer and the
final history contains no tool message at all — the pending tool call was
never dispatched, contradicting the claim that a response with tool calls
always stays in the gathering state. -/
theorem chat_early_final_skips_pending_tools :
    (chat_with_llm envC2 "q" none "c0").response = longC2 ∧
    (chat_with_llm envC2 "q" none "c0").messages.filter
      (fun m => decide (m.role = Role.tool)) = [] ∧
    envC2.llm 0 = LLMResult.ok longC2 [tcC2] :=
  ⟨rfl, rfl, rfl⟩

/-- Claim C2 (amended): during the gathering phase, an LLM response carrying
tool calls whose content does NOT pass the final-report heuristic (non-empty,
over 300 characters, containing a section marker) has all of its tool calls
dispatched, with the assistant message and one result message per call
appended in emission order, and the loop continues gathering; when the
heuristic passes, the content is returned as the final answer and the pending
tool calls are discarded (see the counterexample). -/
theorem gather_dispatches_unless_final (env : Env) (fuel : Nat) (st : RunState)
    (content : String) (tcs : List ToolCall)
    (h : env.llm st.calls = LLMResult.ok content tcs) (hne : tcs ≠ [])
    (hnf : isFinalReport content = false) :
    phase1 env (fuel + 1) st = phase1 env fuel (appendBatch env (bump st true) content tcs) ∧
    (appendBatch env (bump st true) content tcs).messages =
      st.messages ++ (assistantMsgOf content tcs :: tcs.map (toolMsgOf env)) := by
  constructor
  · simp [phase1, h, hne, hnf]
  · simp [appendBatch, bump, batchMsgs]

/-- Claim C2 witness: the dispatch step instantiated on a concrete state and
a concrete single-tool-call response with short content. -/
theorem gather_dispatches_witness :
    phase1 envW4 1 stW2 = phase1 envW4 0 (appendBatch envW4 (bump stW2 true) "" [tcC2, tcB]) ∧
    (appendBatch envW4 (bump stW2 true) "" [tcC2, tcB]).messages =
      stW2.messages ++ (assistantMsgOf "" [tcC2, tcB] :: [tcC2, tcB].map (toolMsgOf envW4)) :=
  gather_dispatches_unless_final envW4 0 stW2 "" [tcC2, tcB] rfl
    (List.cons_ne_nil _ _) rfl

/-! ## Claim C4: tool-call/tool-result pairing of the message history -/

theorem getElem_append_off {α : Type} (l₁ l₂ : List α) (i t : Nat) (ht : t < l₂.length)
    (hit : i = l₁.length + t) (h2 : i < (l₁ ++ l₂).length) :
    (l₁ ++ l₂)[i] = l₂[t] := by
  subst hit
  rw [List.getElem_append_right (by omega : l₁.length ≤ l₁.length + t)]
  congr 1
  omega

theorem batchMsgs_length (env : Env) (content : String) (tcs : List ToolCall) :
    (batchMsgs env content tcs).length = tcs.length + 1 := by
  simp [batchMsgs]

theorem batchMsgs_getElem_zero (env : Env) (content : String) (tcs : List ToolCall)
    (h : 0 < (batchMsgs env content tcs).length) :
    (batchMsgs env content tcs)[0] = assistantMsgOf content tcs := rfl

theorem batchMsgs_getElem_succ (env : Env) (content : String) (tcs : List ToolCall)
    (t : Nat) (ht : t < tcs.length) (hb : t + 1 < (batchMsgs env content tcs).length) :
    (batchMsgs env content tcs)[t + 1] = toolMsgOf env tcs[t] := by
  show (assistantMsgOf content tcs :: tcs.map (toolMsgOf env))[t + 1] = toolMsgOf env tcs[t]
  rw [List.getElem_cons_succ]
  exact List.getElem_map (toolMsgOf env)

theorem chunked_pairProp (env : Env) (ms : List Msg) (h : Chunked env ms) :
    PairProp env ms := by
  induction h with
  | nil => intro i hi; simp at hi
  | plain ms m hm hc ih =>
    intro i hi hrole
    have hi1 : i < ms.length + 1 := by simpa using hi
    by_cases hlt : i < ms.length
    · rw [List.getElem_append_left hlt] at hrole
      obtain ⟨j, hj, hji, hasst, ht, heq, hbet⟩ := ih i hlt hrole
      have hj2 : j < (ms ++ [m]).length := by simp; omega
      have hgj : (ms ++ [m])[j] = ms[j] := List.getElem_append_left hj
      refine ⟨j, hj2, hji, ?_⟩
      rw [hgj, List.getElem_append_left hlt]
      refine ⟨hasst, ht, heq, ?_⟩
      intro k hk h1 h2
      have hkm : k < ms.length := by omega
      rw [List.getElem_append_left hkm]
      exact hbet k hkm h1 h2
    · exfalso
      have hgm : (ms ++ [m])[i] = m :=
        getElem_append_off ms [m] i 0 (by simp) (by omega) hi
      rw [hgm] at hrole
      exact hm hrole
  | batch ms content tcs hc ih =>
    intro i hi hrole
    have hi1 : i < ms.length + (tcs.length + 1) := by
      rw [List.length_append, batchMsgs_length] at hi
      omega
    by_cases hlt : i < ms.length
    · rw [List.getElem_append_left hlt] at hrole
      obtain ⟨j, hj, hji, hasst, ht, heq, hbet⟩ := ih i hlt hrole
      have hj2 : j < (ms ++ batchMsgs env content tcs).length := by
        rw [List.length_append]; omega
      have hgj : (ms ++ batchMsgs env content tcs)[j] = ms[j] := List.getElem_append_left hj
      refine ⟨j, hj2, hji, ?_⟩
      rw [hgj, List.getElem_append_left hlt]
      refine ⟨hasst, ht, heq, ?_⟩
      intro k hk h1 h2
      have hkm : k < ms.length := by omega
      rw [List.getElem_append_left hkm]
      exact hbet k hkm h1 h2
    · have hge : ms.length ≤ i := by omega
      rcases Nat.eq_or_lt_of_le hge with hieq | higt
      · exfalso
        have hg : (ms ++ batchMsgs env content tcs)[i] = assistantMsgOf content tcs := by
          rw [getElem_append_off ms (batchMsgs env content tcs) i 0
            (by rw [batchMsgs_length]; omega) (by omega) hi]
          exact batchMsgs_getElem_zero env content tcs (by rw [batchMsgs_length]; omega)
        rw [hg] at hrole
        simp [assistantMsgOf] at hrole
      · have hti : i - ms.length - 1 < tcs.length := by omega
        have hi2 : i = ms.length + ((i - ms.length - 1) + 1) := by omega
        have hj2 : ms.length < (ms ++ batchMsgs env content tcs).length := by
          rw [List.length_append, batchMsgs_length]; omega
        have hgj : (ms ++ batchMsgs env content tcs)[ms.length] = assistantMsgOf content tcs := by
          rw [getElem_append_off ms (batchMsgs env content tcs) ms.length 0
            (by rw [batchMsgs_length]; omega) (by omega) hj2]
          exact batchMsgs_getElem_zero env content tcs (by rw [batchMsgs_length]; omega)
        have hgi : (ms ++ batchMsgs env content tcs)[i]
            = toolMsgOf env tcs[i - ms.length - 1] := by
          rw [getElem_append_off ms (batchMsgs env content tcs) i ((i - ms.length - 1) + 1)
            (by rw [batchMsgs_length]; omega) hi2 hi]
          exact batchMsgs_getElem_succ env content tcs (i - ms.length - 1) hti
            (by rw [batchMsgs_length]; omega)
        refine ⟨ms.length, hj2, by omega, ?_⟩
        rw [hgj, hgi]
        refine ⟨rfl, hti, rfl, ?_⟩
        intro k hk h1 h2
        have hut : k - ms.length - 1 < tcs.length := by omega
        have hk2 : k = ms.length + ((k - ms.length - 1) + 1) := by omega
        have hgk : (ms ++ batchMsgs env content tcs)[k]
            = toolMsgOf env tcs[k - ms.length - 1] := by
          rw [getElem_append_off ms (batchMsgs env content tcs) k ((k - ms.length - 1) + 1)
            (by rw [batchMsgs_length]; omega) hk2 hk]
          exact batchMsgs_getElem_succ env content tcs (k - ms.length - 1) hut
            (by rw [batchMsgs_length]; omega)
        rw [hgk]
        rfl

theorem chunked_pair (env : Env) (m1 m2 : Msg) (h1 : m1.role ≠ Role.tool)
    (h2 : m2.role ≠ Role.tool) : Chunked env [m1, m2] := by
  have he : ([m1, m2] : List Msg) = ([] ++ [m1]) ++ [m2] := by simp
  rw [he]
  exact Chunked.plain _ _ h2 (Chunked.plain _ _ h1 Chunked.nil)

theorem initState_chunked (env : Env) (q convId : String) :
    Chunked env (initState env q convId).messages :=
  chunked_pair env _ _ (by simp) (by simp)

theorem phase1_chunked (env : Env) :
    ∀ (fuel : Nat) (st : RunState), Chunked env st.messages →
      Chunked env ((phase1 env fuel st).1).messages := by
  intro fuel
  induction fuel with
  | zero => intro st h; simpa [phase1] using h
  | succ fuel ih =>
    intro st h
    rcases hl : env.llm st.calls with t | m | ⟨content, tcs⟩
    · simpa [phase1, hl, bump] using h
    · simpa [phase1, hl, bump] using h
    · by_cases htc : tcs = []
      · by_cases hct : content = ""
        · simpa [phase1, hl, htc, hct, bump] using h
        · simpa [phase1, hl, htc, hct, bump] using h
      · by_cases hfr : isFinalReport content = true
        · simpa [phase1, hl, htc, hfr, bump] using h
        · simp only [phase1, hl, htc, hfr, if_neg, if_false, Bool.false_eq_true]
          apply ih
          show Chunked env (st.messages ++ batchMsgs env content tcs)
          exact Chunked.batch st.messages content tcs h

/-- Claim C4: in every message history `chat_with_llm` builds, each tool-role
message has a nearest preceding assistant message (only tool messages in
between), is exactly the dispatched result of that assistant message's
positionally corresponding tool call — so its `tool_call_id` matches the id
of a tool call of the immediately preceding assistant message, results appear
in the order the calls were emitted, and an unknown tool name contributes its
inline `Unknown tool:` error result in its position rather than aborting the
batch (`toolMsgOf`/`dispatchTool`). -/
theorem chat_history_pairing (env : Env) (q : String) (cid : Option String)
    (fresh : String) : PairProp env (chat_with_llm env q cid fresh).messages := by
  have h0 := initState_chunked env q (convIdOf cid fresh)
  have h1 := phase1_chunked env 5 (initState env q (convIdOf cid fresh)) h0
  rcases hp : phase1 env 5 (initState env q (convIdOf cid fresh)) with ⟨st1, r⟩
  rw [hp] at h1
  cases r with
  | some text =>
    have hout : (chat_with_llm env q cid fresh).messages = st1.messages := by
      simp [chat_with_llm, hp]
    rw [hout]
    exact chunked_pairProp env st1.messages h1
  | none =>
    have hout : (chat_with_llm env q cid fresh).messages
        = st1.messages ++ [summaryUserMsg] := by
      simp [chat_with_llm, hp, (phase2_state env st1).2.1]
    rw [hout]
    exact chunked_pairProp env _ (Chunked.plain _ _ (by decide) h1)

set_option maxRecDepth 8192 in
/-- Claim C4 witness: in the concrete `envW4` run (one batch of two tool
calls, the second naming an unknown tool), the tool message at position 4 —
the inline error result of the unknown tool — pairs with the assistant
message at position 2 in its emission position. -/
theorem chat_history_pairing_witness :
    ∃ (j : Nat) (hj : j < msgsW4.length), j < 4 ∧
      msgsW4[j].role = Role.assistant ∧
      ∃ ht : 4 - j - 1 < msgsW4[j].tool_calls.length,
        msgsW4.get ⟨4, by decide⟩ = toolMsgOf envW4 (msgsW4[j].tool_calls[4 - j - 1]) ∧
        ∀ (k : Nat) (hk : k < msgsW4.length), j < k → k < 4 → msgsW4[k].role = Role.tool :=
  chat_history_pairing envW4 "q" none "c" 4 (by decide) (by decide)
